import Mathlib

/-!
Verification development for the PyReads row-parsing subsystem.

The definitions below are a shallow embedding of `src/pyreads/_parser.py`,
`src/pyreads/models.py` and (for the superseded date parser)
`src/pyreads/_utilities.py`.  HTML markup fragments are modelled as a tree of
nodes; the BeautifulSoup operations actually used by the code
(`find`, `find_all`, `get_text(strip=True)`, attribute lookup, `contents`)
are embedded directly.  Machine floats only ever hold decimal series-entry
values produced by the regexes `\d+(\.\d+)?`, so they are modelled as
rationals.  All functions are total and executable; Python `None` is `none`.
-/

set_option autoImplicit false

namespace PyReads

/-! ### Character and string helpers (Python / regex semantics) -/

/-- Python whitespace set used by `str.strip` and the regex class for
whitespace, restricted to ASCII (all inputs here are ASCII). -/
def isPyWs (c : Char) : Bool :=
  c = ' ' || c = '\t' || c = '\n' || c = '\r' || c = '\x0b' || c = '\x0c'

def isDigitCh (c : Char) : Bool := '0' ≤ c && c ≤ '9'

def digitVal (c : Char) : Nat := c.toNat - '0'.toNat

/-- Regex word characters, for the word-boundary assertion. -/
def isWordCh (c : Char) : Bool :=
  ('a' ≤ c && c ≤ 'z') || ('A' ≤ c && c ≤ 'Z') || isDigitCh c || c = '_'

def lcChar (c : Char) : Char :=
  if 'A' ≤ c && c ≤ 'Z' then Char.ofNat (c.toNat + 32) else c

/-- Python `str.lower()` for the ASCII strings used here. -/
def pyLower (s : String) : String := String.mk (s.data.map lcChar)

def dropWhileCh (p : Char → Bool) : List Char → List Char
  | [] => []
  | c :: cs => if p c then dropWhileCh p cs else c :: cs

def takeWhileCh (p : Char → Bool) : List Char → List Char
  | [] => []
  | c :: cs => if p c then c :: takeWhileCh p cs else []

/-- Python `str.strip()` (both ends, whitespace). -/
def pyStripList (cs : List Char) : List Char :=
  (dropWhileCh isPyWs ((dropWhileCh isPyWs cs.reverse).reverse))

def pyStrip (s : String) : String := String.mk (pyStripList s.data)

def strStartsWith (s pre : String) : Bool :=
  decide (pre.data = s.data.take pre.data.length)

def digitsToNat : List Char → Nat
  | [] => 0
  | c :: cs => digitsToNat cs + digitVal c * 10 ^ cs.length

/-! ### HTML node model

One page of markup is a tree of element and text nodes; attributes are an
association list.  This models the BeautifulSoup tag tree that
`_parser.py` traverses (the parse from raw text to tree is the external
`html.parser` collaborator). -/

inductive Node where
  | text (s : String)
  | elem (tag : String) (attrs : List (String × String)) (children : List Node)

def Node.attr? : Node → String → Option String
  | .text _, _ => none
  | .elem _ attrs _, k => (attrs.find? (fun p => p.1 = k)).map (·.2)

def Node.isElemNamed (t : String) : Node → Bool
  | .text _ => false
  | .elem tag _ _ => tag = t

mutual
/-- `tag.find(pred)`: first matching node among the descendants (pre-order,
document order), not including the node itself. -/
def findN (p : Node → Bool) : Node → Option Node
  | .text _ => none
  | .elem _ _ cs => findL p cs

def findL (p : Node → Bool) : List Node → Option Node
  | [] => none
  | n :: rest =>
    match (if p n then some n else findN p n) with
    | some m => some m
    | none => findL p rest
end

mutual
/-- `tag.find_all(pred)`: all matching descendants in document order. -/
def allN (p : Node → Bool) : Node → List Node
  | .text _ => []
  | .elem _ _ cs => allL p cs

def allL (p : Node → Bool) : List Node → List Node
  | [] => []
  | n :: rest => (if p n then [n] else []) ++ allN p n ++ allL p rest
end

mutual
/-- The descendant text-node strings of a node, in document order. -/
def textsN : Node → List String
  | .text s => [s]
  | .elem _ _ cs => textsL cs

def textsL : List Node → List String
  | [] => []
  | n :: rest => textsN n ++ textsL rest
end

def joinAll : List String → String
  | [] => ""
  | s :: rest => s ++ joinAll rest

/-- `tag.get_text(strip=True)`: every descendant string stripped, empties
skipped, joined with the empty separator. -/
def getTextStrip (n : Node) : String :=
  joinAll (((textsN n).map pyStrip).filter (fun s => s ≠ ""))

/-- BeautifulSoup multi-valued `class_` matching: the search string matches
if it equals one single class or the whole attribute value. -/
def hasClass (search : String) (n : Node) : Bool :=
  match n.attr? "class" with
  | none => false
  | some raw => raw = search || (raw.data.splitOnP (fun c => isPyWs c)).any
      (fun cls => String.mk cls = search)

def hasAttrKey (k : String) (n : Node) : Bool :=
  (n.attr? k).isSome

/-! ### Date parsing

Embedding of `datetime.strptime` restricted to the two formats the code
uses, `"%b %d, %Y"` and `"%b %Y"` (`_DATE_FORMATS` in `_parser.py`).
CPython compiles a format to a regex: whitespace in the format matches one
or more whitespace characters, `%b` is the case-insensitive month
abbreviation, `%d` is the alternation `3[01]|[12]\d|0[1-9]|[1-9]| [1-9]`
tried left to right with backtracking, `%Y` is exactly four digits, and the
regex must consume the whole input.  The resulting day is then validated by
the `datetime` constructor against the month length (leap years included);
`%b %Y` leaves the day at its default 1. -/

structure PDate where
  year : Nat
  month : Nat
  day : Nat
deriving DecidableEq, Repr

def isLeapYear (y : Nat) : Bool :=
  y % 4 = 0 && (y % 100 ≠ 0 || y % 400 = 0)

/-- `calendar.monthrange(y, m)[1]` and the `datetime` month length. -/
def daysInMonth (y m : Nat) : Nat :=
  if m = 2 then (if isLeapYear y then 29 else 28)
  else if m = 4 || m = 6 || m = 9 || m = 11 then 30
  else 31

def monthAbbrevs : List String :=
  ["jan", "feb", "mar", "apr", "may", "jun",
   "jul", "aug", "sep", "oct", "nov", "dec"]

/-- Match `%b`: three chars forming a month abbreviation, case-insensitive. -/
def matchMonth : List Char → Option (Nat × List Char)
  | c1 :: c2 :: c3 :: rest =>
    match (monthAbbrevs.indexOf? (String.mk [lcChar c1, lcChar c2, lcChar c3])) with
    | some i => some (i + 1, rest)
    | none => none
  | _ => none

/-- Whitespace in a strptime format: one or more whitespace characters. -/
def matchWs1 : List Char → Option (List Char)
  | c :: cs => if isPyWs c then some (dropWhileCh isPyWs cs) else none
  | [] => none

/-- The `%d` alternation, candidates in the order the regex tries them. -/
def dayCandidates (cs : List Char) : List (Nat × List Char) :=
  (match cs with
   | '3' :: c :: rest =>
     if c = '0' || c = '1' then [(30 + digitVal c, rest)] else []
   | _ => []) ++
  (match cs with
   | c1 :: c2 :: rest =>
     if (c1 = '1' || c1 = '2') && isDigitCh c2 then
       [(10 * digitVal c1 + digitVal c2, rest)]
     else []
   | _ => []) ++
  (match cs with
   | '0' :: c :: rest =>
     if isDigitCh c && c ≠ '0' then [(digitVal c, rest)] else []
   | _ => []) ++
  (match cs with
   | c :: rest => if isDigitCh c && c ≠ '0' then [(digitVal c, rest)] else []
   | _ => []) ++
  (match cs with
   | ' ' :: c :: rest => if isDigitCh c && c ≠ '0' then [(digitVal c, rest)] else []
   | _ => [])

/-- Match `%Y`: exactly four digits. -/
def matchYear4 : List Char → Option (Nat × List Char)
  | a :: b :: c :: d :: rest =>
    if isDigitCh a && isDigitCh b && isDigitCh c && isDigitCh d then
      some (digitsToNat [a, b, c, d], rest)
    else none
  | _ => none

/-- `strptime(s, "%b %d, %Y")` followed by the `datetime` range check. -/
def strptimeFull (cs : List Char) : Option PDate :=
  match matchMonth cs with
  | none => none
  | some (m, cs1) =>
    match matchWs1 cs1 with
    | none => none
    | some cs2 =>
      (dayCandidates cs2).findSome? (fun dc =>
        match dc.2 with
        | ',' :: cs3 =>
          match matchWs1 cs3 with
          | none => none
          | some cs4 =>
            match matchYear4 cs4 with
            | some (y, []) =>
              if 1 ≤ y && dc.1 ≤ daysInMonth y m then
                some ⟨y, m, dc.1⟩
              else none
            | _ => none
        | _ => none)

/-- `strptime(s, "%b %Y")`; the unset day defaults to 1. -/
def strptimeMonthYear (cs : List Char) : Option PDate :=
  match matchMonth cs with
  | none => none
  | some (m, cs1) =>
    match matchWs1 cs1 with
    | none => none
    | some cs2 =>
      match matchYear4 cs2 with
      | some (y, []) => if 1 ≤ y then some ⟨y, m, 1⟩ else none
      | _ => none

/-! ### The series regexes (`_SERIES_PATTERNS`) and the page-number regex

The three patterns, applied with `pattern.match` (anchored at the start of
the string, trailing text ignored):

1. `\((.*?)(?:,\s*|\s+)#(\d+(?:\.\d+)?)\)`
2. `^(.*?)(?:,)?\s*Vol\.\s*(\d+(?:\.\d+)?)\b`
3. `\((.*?)\s+Book\s+(\d+(?:\.\d+)?)\)`

The lazy group `(.*?)` is realised by trying the shortest name first and
extending one character at a time (a name character may not be a newline);
alternations are tried left to right; greedy pieces followed by a literal
the repeated class cannot contain are deterministic. -/

def spanDigits : List Char → List Char × List Char
  | [] => ([], [])
  | c :: rest =>
    if isDigitCh c then
      let p := spanDigits rest
      (c :: p.1, p.2)
    else ([], c :: rest)

/-- Match a literal character sequence, returning the remainder. -/
def matchLit : List Char → List Char → Option (List Char)
  | [], cs => some cs
  | _ :: _, [] => none
  | l :: ls, c :: cs => if c = l then matchLit ls cs else none

/-- `\d+(?:\.\d+)?\)`: the number group when a closing parenthesis follows,
with the regex backtracking out of the optional fraction. -/
def numThenClose (cs : List Char) : Option (List Char) :=
  let p1 := spanDigits cs
  if p1.1 = [] then none
  else
    match p1.2 with
    | ')' :: _ => some p1.1
    | '.' :: r2 =>
      let p2 := spanDigits r2
      if p2.1 = [] then none
      else
        match p2.2 with
        | ')' :: _ => some (p1.1 ++ '.' :: p2.1)
        | _ => none
    | _ => none

/-- Word-boundary assertion directly after a digit: next char is a non-word
character or the end of the string. -/
def boundaryOk : List Char → Bool
  | [] => true
  | c :: _ => !(isWordCh c)

/-- `\d+(?:\.\d+)?\b`, with backtracking out of the optional fraction. -/
def numThenBoundary (cs : List Char) : Option (List Char) :=
  let p1 := spanDigits cs
  if p1.1 = [] then none
  else
    match p1.2 with
    | '.' :: r2 =>
      let p2 := spanDigits r2
      if p2.1 ≠ [] && boundaryOk p2.2 then some (p1.1 ++ '.' :: p2.1)
      else if boundaryOk p1.2 then some p1.1
      else none
    | _ => if boundaryOk p1.2 then some p1.1 else none

/-- `(?:,\s*|\s+)#` followed by the number group of pattern 1. -/
def pat1Sep (tail : List Char) : Option (List Char) :=
  let alt1 :=
    match tail with
    | ',' :: t1 =>
      match dropWhileCh isPyWs t1 with
      | '#' :: t3 => numThenClose t3
      | _ => none
    | _ => none
  match alt1 with
  | some r => some r
  | none =>
    match matchWs1 tail with
    | some t1 =>
      match t1 with
      | '#' :: t3 => numThenClose t3
      | _ => none
    | none => none

def pat1Go (nameRev : List Char) : List Char → Option (List Char × List Char)
  | [] =>
    match pat1Sep [] with
    | some num => some (nameRev.reverse, num)
    | none => none
  | c :: rest =>
    match pat1Sep (c :: rest) with
    | some num => some (nameRev.reverse, num)
    | none => if c = '\n' then none else pat1Go (c :: nameRev) rest

def pat1Match (s : String) : Option (String × String) :=
  match s.data with
  | '(' :: rest => (pat1Go [] rest).map (fun p => (String.mk p.1, String.mk p.2))
  | _ => none

/-- `(?:,)?\s*Vol\.\s*` followed by the number group of pattern 2. -/
def pat2Sep (tail : List Char) : Option (List Char) :=
  let core := fun (t : List Char) =>
    match matchLit "Vol.".data (dropWhileCh isPyWs t) with
    | none => none
    | some t2 => numThenBoundary (dropWhileCh isPyWs t2)
  match tail with
  | ',' :: t0 =>
    match core t0 with
    | some r => some r
    | none => core tail
  | _ => core tail

def pat2Go (nameRev : List Char) : List Char → Option (List Char × List Char)
  | [] =>
    match pat2Sep [] with
    | some num => some (nameRev.reverse, num)
    | none => none
  | c :: rest =>
    match pat2Sep (c :: rest) with
    | some num => some (nameRev.reverse, num)
    | none => if c = '\n' then none else pat2Go (c :: nameRev) rest

def pat2Match (s : String) : Option (String × String) :=
  (pat2Go [] s.data).map (fun p => (String.mk p.1, String.mk p.2))

/-- `\s+Book\s+` followed by the number group of pattern 3. -/
def pat3Sep (tail : List Char) : Option (List Char) :=
  match matchWs1 tail with
  | none => none
  | some t1 =>
    match matchLit "Book".data t1 with
    | none => none
    | some t2 =>
      match matchWs1 t2 with
      | none => none
      | some t3 => numThenClose t3

def pat3Go (nameRev : List Char) : List Char → Option (List Char × List Char)
  | [] =>
    match pat3Sep [] with
    | some num => some (nameRev.reverse, num)
    | none => none
  | c :: rest =>
    match pat3Sep (c :: rest) with
    | some num => some (nameRev.reverse, num)
    | none => if c = '\n' then none else pat3Go (c :: nameRev) rest

def pat3Match (s : String) : Option (String × String) :=
  match s.data with
  | '(' :: rest => (pat3Go [] rest).map (fun p => (String.mk p.1, String.mk p.2))
  | _ => none

/-- `_PAGE_NUMBER_PATTERN.search`: the regex `(\d{1,6})(?=\D|$)` scanned left
to right.  At a digit whose maximal run has length at most six, the greedy
repetition takes the whole run and the lookahead holds; a longer run forces
the scan one character to the right. -/
def pageNumberSearch : List Char → Option Nat
  | [] => none
  | c :: rest =>
    if isDigitCh c then
      let run := takeWhileCh isDigitCh (c :: rest)
      if run.length ≤ 6 then some (digitsToNat run) else pageNumberSearch rest
    else pageNumberSearch rest

/-- `_extract_number` from `_parser.py`. -/
def _extract_number (s : String) : Option Int :=
  if s = "" then none else (pageNumberSearch s.data).map Int.ofNat

/-- `_STRING_TO_RATING.get(title.lower(), 0)`: the fixed lookup table of
`_parser.py`, case-insensitive with default 0. -/
def _RatingParser_transform_data (s : String) : Int :=
  let l := pyLower s
  if l = "did not like it" then 1
  else if l = "it was ok" then 2
  else if l = "liked it" then 3
  else if l = "really liked it" then 4
  else if l = "it was amazing" then 5
  else 0

/-! ### The field parsers of `_parser.py`

Each concrete parser supplies the three steps of `_Parser.parse`: extract
an element from the row, extract raw data from it, transform the data.
A `none` at any step makes `parse` return `none` (the absence marker). -/

/-- `_Parser.parse`: the three-step template method. -/
def parsePipeline {α β γ : Type} (extractElement : Node → Option α)
    (extractData : α → Option β) (transformData : β → Option γ)
    (row : Node) : Option γ :=
  match extractElement row with
  | none => none
  | some e =>
    match extractData e with
    | none => none
    | some d => transformData d

/-- `_safe_find_text(el)` with the default `strip=True`: stripped text of the
element, `None` when the element is `None` or its text is empty. -/
def _safe_find_text (el : Option Node) : Option String :=
  match el with
  | none => none
  | some e => if getTextStrip e = "" then none else some (getTextStrip e)

/-- `_get_field_cell(row, f)`: the first `<td class="field f">` descendant. -/
def _get_field_cell (row : Node) (fieldName : String) : Option Node :=
  findN (fun n => n.isElemNamed "td" && hasClass ("field " ++ fieldName) n) row

/-- `_AuthorParser.parse`. -/
def _AuthorParser_parse (row : Node) : Option String :=
  parsePipeline (fun r => _get_field_cell r "author")
    (fun cell => findN (Node.isElemNamed "a") cell)
    (fun link => _safe_find_text (some link)) row

/-- `_DateParser._extract_data`: the `date_read_value` span, else the first
span carrying a `title` attribute. -/
def dateSpanOf (cell : Node) : Option Node :=
  match findN (fun n => n.isElemNamed "span" && hasClass "date_read_value" n) cell with
  | some sp => some sp
  | none => findN (fun n => n.isElemNamed "span" && hasAttrKey "title" n) cell

/-- `_DateParser._transform_data`: the `_DATE_FORMATS` loop, full format
before month-only, no day normalization. -/
def _DateParser_transform_data (s : String) : Option PDate :=
  match strptimeFull s.data with
  | some d => some d
  | none => strptimeMonthYear s.data

/-- `_DateParser.parse`. -/
def _DateParser_parse (row : Node) : Option PDate :=
  parsePipeline (fun r => _get_field_cell r "date_read")
    (fun cell => _safe_find_text (dateSpanOf cell))
    (fun s => _DateParser_transform_data s) row

/-- `parse_review_date` from the superseded `_utilities.py`: same two
formats, but a month-only match is moved to `monthrange(y, m)[1]`, the last
day of the month. -/
def parse_review_date (s : String) : Option PDate :=
  match strptimeFull s.data with
  | some d => some d
  | none =>
    match strptimeMonthYear s.data with
    | some d => some ⟨d.year, d.month, daysInMonth d.year d.month⟩
    | none => none

/-- `_PageNumberParser.parse`: the `num_pages` cell, its `<nobr>` element,
`_extract_number` on the stripped text. -/
def _PageNumberParser_parse (row : Node) : Option Int :=
  parsePipeline (fun r => _get_field_cell r "num_pages")
    (fun cell => _safe_find_text (findN (Node.isElemNamed "nobr") cell))
    (fun s => _extract_number s) row

/-- The `_Parser.parse` pipeline for `_RatingParser` (the
`super(_RatingParser, _RatingParser).parse(row)` call): the `rating` cell,
the `staticStars` span's `title` attribute, the lookup table. -/
def _RatingParser_parse_generic (row : Node) : Option Int :=
  parsePipeline (fun r => _get_field_cell r "rating")
    (fun cell =>
      match findN (fun n => n.isElemNamed "span" && hasClass "staticStars" n) cell with
      | none => none
      | some sp => sp.attr? "title")
    (fun s => some (_RatingParser_transform_data s)) row

/-- `_RatingParser.parse`: overrides the template to return 0 instead of the
absence marker. -/
def _RatingParser_parse (row : Node) : Int :=
  match _RatingParser_parse_generic row with
  | none => 0
  | some r => r

/-- The `_REVIEW_ID_PATTERN` filter: a span whose id matches the regex
`^freeTextContainerreview`. -/
def isReviewTextSpan (n : Node) : Bool :=
  n.isElemNamed "span" &&
    (match n.attr? "id" with
     | some v => strStartsWith v "freeTextContainerreview"
     | none => false)

/-- `_ReviewParser.parse`: the span whose id starts with
`freeTextContainerreview`. -/
def _ReviewParser_parse (row : Node) : Option String :=
  parsePipeline
    (fun r => findN isReviewTextSpan r)
    (fun sp => _safe_find_text (some sp))
    (fun s => some s) row

/-- The `_Series` pydantic model: `entry` is coerced from the regex digit
string to a float, modelled as the exact decimal rational. -/
structure SeriesVal where
  name : String
  entry : ℚ
deriving DecidableEq, Repr

/-- `float(s)` for the number strings `\d+(\.\d+)?` captured by the series
patterns, as an exact decimal. -/
def decStrToQ (s : String) : ℚ :=
  let p := spanDigits s.data
  match p.2 with
  | '.' :: fr =>
    let frd := takeWhileCh isDigitCh fr
    mkRat (Int.ofNat (digitsToNat p.1 * 10 ^ frd.length + digitsToNat frd))
      (10 ^ frd.length)
  | _ => mkRat (Int.ofNat (digitsToNat p.1)) 1

/-- `_SeriesParser._transform_data`: the `_SERIES_PATTERNS` loop, first match
wins, `name` stripped and `entry` coerced. -/
def _SeriesParser_transform_data (s : String) : Option SeriesVal :=
  match pat1Match s with
  | some m => some ⟨pyStrip m.1, decStrToQ m.2⟩
  | none =>
    match pat2Match s with
    | some m => some ⟨pyStrip m.1, decStrToQ m.2⟩
    | none =>
      match pat3Match s with
      | some m => some ⟨pyStrip m.1, decStrToQ m.2⟩
      | none => none

/-- `_SeriesParser.parse`: the title cell's link, the embedded
`darkGreyText` annotation span's stripped text, the pattern loop. -/
def _SeriesParser_parse (row : Node) : Option SeriesVal :=
  parsePipeline
    (fun r =>
      match _get_field_cell r "title" with
      | none => none
      | some cell => findN (Node.isElemNamed "a") cell)
    (fun link => _safe_find_text
      (findN (fun n => n.isElemNamed "span" && hasClass "darkGreyText" n) link))
    (fun s => _SeriesParser_transform_data s) row

/-- `_TitleParser._transform_data`: prefer the link's leading text child
(stripped, possibly empty), else the link's full stripped text or absence. -/
def _TitleParser_transform_data (link : Node) : Option String :=
  match link with
  | .text _ => none
  | .elem _ _ children =>
    match children with
    | .text s :: _ => some (pyStrip s)
    | _ =>
      if getTextStrip link = "" then none else some (getTextStrip link)

/-- `_TitleParser.parse`. -/
def _TitleParser_parse (row : Node) : Option String :=
  parsePipeline
    (fun r =>
      match _get_field_cell r "title" with
      | none => none
      | some cell => findN (Node.isElemNamed "a") cell)
    (fun link => some link)
    (fun link => _TitleParser_transform_data link) row

/-! ### Row assembly and the pydantic `Book` model -/

/-- The attribute dictionary built by `_parse_row`: each key's value has the
one runtime type its parser can produce, with `none` for Python `None`.
The `series` key itself is an extra key that `Book.model_validate`
ignores. -/
structure RowAttrs where
  authorName : Option String := none
  dateRead : Option PDate := none
  numberOfPages : Option Int := none
  userRating : Option Int := none
  userReview : Option String := none
  title : Option String := none
  series : Option SeriesVal := none
  seriesName : Option String := none
  seriesEntry : Option ℚ := none
deriving DecidableEq, Repr

/-- `_parse_row`: run every parser, split a series match into the
`seriesName` and `seriesEntry` attributes (the rating parser always
contributes an integer, never `None`). -/
def _parse_row (row : Node) : RowAttrs :=
  let sv := _SeriesParser_parse row
  { authorName := _AuthorParser_parse row
    dateRead := _DateParser_parse row
    numberOfPages := _PageNumberParser_parse row
    userRating := some (_RatingParser_parse row)
    userReview := _ReviewParser_parse row
    title := _TitleParser_parse row
    series := sv
    seriesName := sv.map (·.name)
    seriesEntry := sv.map (·.entry) }

instance {ε α : Type} [DecidableEq ε] [DecidableEq α] :
    DecidableEq (Except ε α) := fun x y =>
  match x, y with
  | .ok a, .ok b =>
    if h : a = b then .isTrue (by rw [h])
    else .isFalse (fun hh => h (by injection hh))
  | .error a, .error b =>
    if h : a = b then .isTrue (by rw [h])
    else .isFalse (fun hh => h (by injection hh))
  | .ok _, .error _ => .isFalse (fun hh => Except.noConfusion hh)
  | .error _, .ok _ => .isFalse (fun hh => Except.noConfusion hh)

/-- The validated `Book` record of `models.py`. -/
structure Book where
  title : String
  authorName : String
  numberOfPages : Option Int
  dateRead : Option PDate
  userRating : Option Int
  userReview : Option String
  seriesName : Option String
  seriesEntry : Option ℚ
deriving DecidableEq, Repr

/-- Python truthiness of `str | None`: `None` and `""` are falsy. -/
def truthyOptStr : Option String → Bool
  | none => false
  | some s => s ≠ ""

/-- Python truthiness of `float | None`: `None` and `0.0` are falsy
(a rational is zero exactly when its numerator is). -/
def truthyOptQ : Option ℚ → Bool
  | none => false
  | some q => q.num ≠ 0

/-- `Book.model_validate(attributes)`: `title` and `authorName` are required
strings, `userRating` must inhabit `Literal[1, 2, 3, 4, 5] | None`, and the
`validate_series` model validator requires `bool(seriesName) ==
bool(seriesEntry)`.  Extra keys (`series`) are ignored; optional fields
default to `None`. -/
def Book.model_validate (a : RowAttrs) : Except String Book :=
  match a.title with
  | none => .error "title: Input should be a valid string"
  | some t =>
    match a.authorName with
    | none => .error "authorName: Input should be a valid string"
    | some au =>
      match a.userRating with
      | some r =>
        if r = 1 || r = 2 || r = 3 || r = 4 || r = 5 then
          if truthyOptStr a.seriesName = truthyOptQ a.seriesEntry then
            .ok ⟨t, au, a.numberOfPages, a.dateRead, some r, a.userReview,
                 a.seriesName, a.seriesEntry⟩
          else .error "seriesName and seriesEntry must be provided together."
        else .error "userRating: Input should be 1, 2, 3, 4 or 5 or None"
      | none =>
        if truthyOptStr a.seriesName = truthyOptQ a.seriesEntry then
          .ok ⟨t, au, a.numberOfPages, a.dateRead, none, a.userReview,
               a.seriesName, a.seriesEntry⟩
        else .error "seriesName and seriesEntry must be provided together."

/-- Python `str()` of a float holding an exact decimal value (the shortest
round-trip repr): integer part, a point, then the minimal number of fraction
digits (at least one).  Only decimal-valued rationals arise in this
development; a non-decimal rational falls back to its integer part. -/
def pyFloatStr (q : ℚ) : String :=
  let sgn := if q.num < 0 then "-" else ""
  let na : Nat := q.num.natAbs
  let d : Nat := q.den
  let ip : Nat := na / d
  let fn : Nat := na % d
  match (List.range 18).findSome? (fun k =>
      if fn * 10 ^ (k + 1) % d = 0 then some (k + 1, fn * 10 ^ (k + 1) / d)
      else none) with
  | some kf =>
    let ds := Nat.repr kf.2
    let pad := List.replicate (kf.1 - ds.length) '0'
    sgn ++ Nat.repr ip ++ "." ++ String.mk pad ++ ds
  | none => sgn ++ Nat.repr ip

/-- The f-string rendering of the series entry in `full_title`:
`int(e)` when `e.is_integer()` (no decimal point), else the float itself. -/
def entryRender (q : ℚ) : String :=
  if q.den = 1 then Int.repr q.num else pyFloatStr q

/-- `Book.full_title`: Python tests `if self.seriesName and self.seriesEntry`
(truthiness), so the series fragment appears only when the name is a
non-empty string and the entry a non-zero number. -/
def Book.full_title (b : Book) : String :=
  let base := b.title ++ " "
  let withSeries :=
    match b.seriesName, b.seriesEntry with
    | some n, some q =>
      if n ≠ "" && q.num ≠ 0 then
        base ++ ("(" ++ n ++ ", #" ++ entryRender q ++ ") ")
      else base
    | _, _ => base
  withSeries ++ ("by " ++ b.authorName)

/-! ### The page-to-records driver -/

/-- The row filter of `_parse_books_from_html`:
`soup.find_all("tr", id=re.compile(r"^review_"))`. -/
def isReviewRow (n : Node) : Bool :=
  n.isElemNamed "tr" &&
    (match n.attr? "id" with
     | some v => strStartsWith v "review_"
     | none => false)

/-- One driver step: validate one row's attributes, collecting the book or
counting the emitted warning. -/
def driverStep (acc : List Book × Nat) (row : Node) : List Book × Nat :=
  match Book.model_validate (_parse_row row) with
  | .ok b => (acc.1 ++ [b], acc.2)
  | .error _ => (acc.1, acc.2 + 1)

/-- `_parse_books_from_html`: every review row in document order; a failed
validation warns (counted here) and is dropped, the loop continues.
Returns the accumulated books plus the number of warnings. -/
def _parse_books_from_html (page : Node) : List Book × Nat :=
  (allN isReviewRow page).foldl driverStep ([], 0)

/-! ### Concrete markup fixtures used by the theorems -/

/-- A bare table row with no cells at all. -/
def emptyRow : Node := .elem "tr" [] []

def titleCellWatchmen : Node :=
  .elem "td" [("class", "field title")]
    [.elem "div" [("class", "value")]
      [.elem "a" [("href", "/book/show/472331")] [.text "Watchmen"]]]

def authorCellMoore : Node :=
  .elem "td" [("class", "field author")]
    [.elem "div" [("class", "value")]
      [.elem "a" [("href", "/author/show/3961")] [.text "Moore, Alan"]]]

/-- A review row carrying every field (the Watchmen sample shape). -/
def goodRow : Node :=
  .elem "tr" [("id", "review_81002456"), ("class", "bookalike review")]
    [titleCellWatchmen,
     authorCellMoore,
     .elem "td" [("class", "field num_pages")]
       [.elem "div" [("class", "value")]
         [.elem "nobr" [] [.text "416 pages"]]],
     .elem "td" [("class", "field date_read")]
       [.elem "div" [("class", "value")]
         [.elem "span" [("class", "date_read_value")] [.text "Dec 15, 2009"]]],
     .elem "td" [("class", "field rating")]
       [.elem "div" [("class", "value")]
         [.elem "span" [("class", "staticStars"), ("title", "it was amazing")] []]],
     .elem "td" [("class", "field review")]
       [.elem "span" [("id", "freeTextContainerreview81002456")]
         [.text "Too many characters."]]]

/-- The record the good row validates to. -/
def goodBook : Book :=
  ⟨"Watchmen", "Moore, Alan", some 416, some ⟨2009, 12, 15⟩, some 5,
   some "Too many characters.", none, none⟩

/-- A review row whose title cell is missing entirely. -/
def rowMissingTitle : Node :=
  .elem "tr" [("id", "review_81002457"), ("class", "bookalike review")]
    [authorCellMoore,
     .elem "td" [("class", "field num_pages")]
       [.elem "div" [("class", "value")]
         [.elem "nobr" [] [.text "416"]]]]

/-- A page holding one full row and one row missing the title cell. -/
def samplePage : Node :=
  .elem "html" [] [.elem "body" [] [.elem "table" [] [goodRow, rowMissingTitle]]]

/-- A page whose only row does not carry a `review_` id. -/
def noRowsPage : Node :=
  .elem "html" []
    [.elem "body" []
      [.elem "table" []
        [.elem "tr" [("class", "header")] [.elem "td" [] [.text "Title"]]]]]

/-- A row with valid title and author but no rating cell: the rating parser
yields the neutral 0 for it. -/
def rowNoRating : Node :=
  .elem "tr" [("id", "review_1")] [titleCellWatchmen, authorCellMoore]

/-- A rating cell whose `staticStars` span carries the given title text. -/
def mkRatingRow (t : String) : Node :=
  .elem "tr" []
    [.elem "td" [("class", "field rating")]
      [.elem "span" [("class", "staticStars"), ("title", t)] []]]

/-- A `num_pages` cell whose text sits directly in the cell, with no
`<nobr>` element around it. -/
def pagesCellNoNobr : Node :=
  .elem "td" [("class", "field num_pages")] [.text "416"]

def rowPagesNoNobr : Node := .elem "tr" [] [pagesCellNoNobr]

/-- A `num_pages` cell with the usual `<nobr>` wrapper. -/
def mkPagesRow (t : String) : Node :=
  .elem "tr" []
    [.elem "td" [("class", "field num_pages")]
      [.elem "nobr" [] [.text t]]]

/-- A title link holding only raw text, with no annotation span. -/
def mkTitleRowRaw (s : String) : Node :=
  .elem "tr" []
    [.elem "td" [("class", "field title")]
      [.elem "a" [] [.text s]]]

/-- A title link with an embedded `darkGreyText` annotation span. -/
def mkTitleRowAnnot (s : String) : Node :=
  .elem "tr" []
    [.elem "td" [("class", "field title")]
      [.elem "a" []
        [.text "Title ", .elem "span" [("class", "darkGreyText")] [.text s]]]]

/-- Attribute dictionaries for direct `Book` construction: the given series
fields over an otherwise valid record. -/
def mkSeriesAttrs (name : Option String) (entry : Option ℚ) : RowAttrs :=
  { title := some "Example Book", authorName := some "John Doe",
    userRating := some 5, seriesName := name, seriesEntry := entry }

/-- The `required_attrs` dictionary of `test_models.py`
(`userRating=0`, both series fields omitted). -/
def testModelsRequiredAttrs : RowAttrs :=
  { title := some "", authorName := some "", numberOfPages := some 1,
    dateRead := some ⟨2025, 8, 20⟩, userRating := some 0 }

/-- Attributes whose series fields are both set but both falsy: the empty
name and the zero entry. -/
def degenerateSeriesAttrs : RowAttrs :=
  { title := some "T", authorName := some "A", userRating := some 5,
    seriesName := some "", seriesEntry := some (mkRat 0 1) }

/-- The record `degenerateSeriesAttrs` validates to. -/
def degenerateBook : Book :=
  ⟨"T", "A", none, none, some 5, none, some "", some (mkRat 0 1)⟩

/-- A record with truthy series fields (the `test_models.py` example). -/
def bookWithSeries : Book :=
  ⟨"Example Book", "John Doe", some 300, some ⟨2025, 8, 20⟩, some 5,
   some "Great book!", some "The Example Series", some (mkRat 2 1)⟩

/-- A record with a fractional series entry. -/
def bookWithHalfEntry : Book :=
  ⟨"Example Book", "John Doe", none, none, some 4, none,
   some "The Example Series", some (mkRat 5 2)⟩

/-- An author cell that holds no link element. -/
def authorCellNoLink : Node :=
  .elem "td" [("class", "field author")]
    [.elem "div" [("class", "value")] [.text "No Link"]]

def rowAuthorNoLink : Node := .elem "tr" [] [authorCellNoLink]

/-- A title cell that holds no link element. -/
def titleCellNoLink : Node :=
  .elem "td" [("class", "field title")]
    [.elem "div" [("class", "value")] [.text "No Link"]]

def rowTitleNoLink : Node := .elem "tr" [] [titleCellNoLink]

/-- A title link holding only plain text, and its cell and row. -/
def plainTitleLink : Node := .elem "a" [] [.text "Plain"]

def plainTitleCell : Node :=
  .elem "td" [("class", "field title")] [plainTitleLink]

def rowPlainTitle : Node := .elem "tr" [] [plainTitleCell]

/-- A date cell with no span at all inside it. -/
def dateCellNoSpan : Node :=
  .elem "td" [("class", "field date_read")]
    [.elem "div" [("class", "value")] [.text "Dec 15, 2009"]]

def rowDateNoSpan : Node := .elem "tr" [] [dateCellNoSpan]

/-- A rating cell with no `staticStars` span. -/
def ratingCellNoSpan : Node :=
  .elem "td" [("class", "field rating")]
    [.elem "div" [("class", "value")] [.text "No stars"]]

def rowRatingNoSpan : Node := .elem "tr" [] [ratingCellNoSpan]

/-- A `staticStars` span that carries no `title` attribute, and its cell
and row. -/
def bareStaticStarsSpan : Node := .elem "span" [("class", "staticStars")] []

def ratingCellBareSpan : Node :=
  .elem "td" [("class", "field rating")] [bareStaticStarsSpan]

def rowRatingBareSpan : Node := .elem "tr" [] [ratingCellBareSpan]

end PyReads


/-! ## Theorems about the claims -/

namespace PyReads

/-- The driver fold in closed form: books are the validated rows in document
order, the warning count is the number of rows dropped. -/
theorem foldl_driverStep_spec (rows : List Node) (acc : List Book × Nat) :
    rows.foldl driverStep acc =
      (acc.1 ++ rows.filterMap (fun r => (Book.model_validate (_parse_row r)).toOption),
       acc.2 + rows.countP (fun r => !(Book.model_validate (_parse_row r)).isOk)) := by
  induction rows generalizing acc with
  | nil => simp
  | cons r rest ih =>
    rw [List.foldl_cons, ih]
    cases h : Book.model_validate (_parse_row r) with
    | ok b =>
      simp [driverStep, h, Except.toOption, Except.isOk, Except.toBool,
        List.filterMap_cons, List.countP_cons]
    | error e =>
      simp [driverStep, h, Except.toOption, Except.isOk, Except.toBool,
        List.filterMap_cons, List.countP_cons]
      omega

/-- The rating lookup table only produces values between 0 and 5. -/
theorem rating_lookup_range (s : String) :
    0 ≤ _RatingParser_transform_data s ∧ _RatingParser_transform_data s ≤ 5 := by
  unfold _RatingParser_transform_data
  dsimp only
  split_ifs <;> norm_num

/-- The overridden rating `parse` always lands in `[0, 5]`. -/
theorem rating_parse_range (row : Node) :
    0 ≤ _RatingParser_parse row ∧ _RatingParser_parse row ≤ 5 := by
  unfold _RatingParser_parse
  cases h : _RatingParser_parse_generic row with
  | none => norm_num
  | some n =>
    unfold _RatingParser_parse_generic parsePipeline at h
    split at h
    · exact absurd h (by simp)
    · split at h
      · exact absurd h (by simp)
      · injection h with h
        subst h
        exact rating_lookup_range _

/-- Claim C1: the claim is right and the code is wrong.  On a row with a
valid title and author but no rating cell, the rating extractor yields the
neutral 0, yet `Book.model_validate` rejects the attributes: the field type
`Literal[1, 2, 3, 4, 5] | None` does not admit 0, so the row is dropped
instead of producing a record with user rating 0.  The same rejection hits
the `required_attrs` dictionary that `test_models.py` expects to validate
(it carries `userRating=0`). -/
theorem c1_rating_zero_is_rejected :
    (_parse_row rowNoRating).title = some "Watchmen" ∧
    (_parse_row rowNoRating).authorName = some "Moore, Alan" ∧
    (_parse_row rowNoRating).userRating = some 0 ∧
    (Book.model_validate (_parse_row rowNoRating)).isOk = false ∧
    (Book.model_validate testModelsRequiredAttrs).isOk = false := by
  refine ⟨by decide, by decide, by decide, by decide, by decide⟩

/-- Claim C2, counterexample: month-only text is not normalized to the last
day of the month by the Date Read extractor of `_parser.py`; `"Dec 2009"`
parses to December 1, 2009, not December 31. -/
theorem c2_month_only_first_day :
    _DateParser_transform_data "Dec 2009" = some ⟨2009, 12, 1⟩ ∧
    _DateParser_transform_data "Dec 2009" ≠ some ⟨2009, 12, 31⟩ := by
  refine ⟨by decide, by decide⟩

/-- Claim C2 as amended: the Date Read extractor parses full
`"Mon DD, YYYY"` text to that exact calendar date; month-only `"Mon YYYY"`
text parses to the FIRST day of the month (strptime's default day) — the
last-day normalization with leap-year handling lives only in the superseded
`_utilities.py` `parse_review_date`; text matching neither format yields
absence. -/
theorem c2_date_read_amended :
    _DateParser_transform_data "Dec 15, 2009" = some ⟨2009, 12, 15⟩ ∧
    _DateParser_parse goodRow = some ⟨2009, 12, 15⟩ ∧
    _DateParser_transform_data "Dec 2009" = some ⟨2009, 12, 1⟩ ∧
    parse_review_date "Dec 2009" = some ⟨2009, 12, 31⟩ ∧
    parse_review_date "Feb 2008" = some ⟨2008, 2, 29⟩ ∧
    parse_review_date "Feb 2009" = some ⟨2009, 2, 28⟩ ∧
    parse_review_date "Jun 2010" = some ⟨2010, 6, 30⟩ ∧
    _DateParser_transform_data "Invalid Date" = none ∧
    (∀ s : String, strptimeFull s.data = none → strptimeMonthYear s.data = none →
      _DateParser_transform_data s = none ∧ parse_review_date s = none) := by
  refine ⟨by decide, by decide, by decide, by decide, by decide, by decide,
    by decide, by decide, ?_⟩
  intro s h1 h2
  constructor
  · unfold _DateParser_transform_data
    rw [h1, h2]
  · unfold parse_review_date
    rw [h1, h2]

/-- Witness for the amended C2 theorem at a concrete unparseable input. -/
theorem c2_date_read_amended_witness :
    _DateParser_transform_data "yesterday" = none ∧
    parse_review_date "yesterday" = none :=
  c2_date_read_amended.2.2.2.2.2.2.2.2 "yesterday" (by decide) (by decide)

/-- Claim C3, counterexample: the series validator tests Python truthiness,
not presence.  With both fields set but the entry equal to 0.0, validation
fails even though name and entry are jointly present; with the name set to
the empty string and the entry unset, validation succeeds even though only
one field is present. -/
theorem c3_truthiness_not_presence :
    (Book.model_validate
      (mkSeriesAttrs (some "The Example Series") (some (mkRat 0 1)))).isOk = false ∧
    (Book.model_validate (mkSeriesAttrs (some "") none)).isOk = true := by
  refine ⟨by decide, by decide⟩

/-- Claim C3 as amended: over an otherwise valid attribute mapping, record
construction succeeds exactly when the truthiness of the series name equals
the truthiness of the series entry (`None` and `""` are falsy names, `None`
and `0.0` falsy entries); and every successfully validated record satisfies
that truthiness invariant. -/
theorem c3_series_invariant_amended :
    (∀ name entry, (Book.model_validate (mkSeriesAttrs name entry)).isOk =
      (truthyOptStr name == truthyOptQ entry)) ∧
    (∀ a : RowAttrs, (Book.model_validate a).isOk = true →
      truthyOptStr a.seriesName = truthyOptQ a.seriesEntry) := by
  constructor
  · intro name entry
    unfold Book.model_validate mkSeriesAttrs
    dsimp only
    by_cases h : truthyOptStr name = truthyOptQ entry
    · simp [h, Except.isOk, Except.toBool]
    · simp [h, Except.isOk, Except.toBool]
  · intro a h
    unfold Book.model_validate at h
    split at h
    · simp [Except.isOk, Except.toBool] at h
    · split at h
      · simp [Except.isOk, Except.toBool] at h
      · split at h
        · split at h
          · split at h
            · assumption
            · simp [Except.isOk, Except.toBool] at h
          · simp [Except.isOk, Except.toBool] at h
        · split at h
          · assumption
          · simp [Except.isOk, Except.toBool] at h

/-- Witness for the amended C3 theorem: a valid record with both series
fields truthy, and the invariant read off a validated record. -/
theorem c3_series_invariant_amended_witness :
    (Book.model_validate
      (mkSeriesAttrs (some "The Example Series") (some (mkRat 2 1)))).isOk =
      (truthyOptStr (some "The Example Series") == truthyOptQ (some (mkRat 2 1))) ∧
    truthyOptStr (mkSeriesAttrs (some "S") (some (mkRat 1 1))).seriesName =
      truthyOptQ (mkSeriesAttrs (some "S") (some (mkRat 1 1))).seriesEntry :=
  ⟨c3_series_invariant_amended.1 (some "The Example Series") (some (mkRat 2 1)),
   c3_series_invariant_amended.2 (mkSeriesAttrs (some "S") (some (mkRat 1 1)))
     (by decide)⟩

/-- Claim C4: the page-to-records driver processes every `review_` row in
document order; its books are exactly the rows whose attributes validate
(in order), its warning count exactly the rows dropped, so no failure
aborts the page.  A page with one full row plus one row missing the title
cell yields exactly the one record (with one warning), and a page with no
matching rows yields the empty list with no warning. -/
theorem c4_driver_drops_and_continues :
    (∀ page : Node, _parse_books_from_html page =
      ((allN isReviewRow page).filterMap
        (fun r => (Book.model_validate (_parse_row r)).toOption),
       (allN isReviewRow page).countP
        (fun r => !(Book.model_validate (_parse_row r)).isOk))) ∧
    _parse_books_from_html samplePage = ([goodBook], 1) ∧
    _parse_books_from_html noRowsPage = ([], 0) := by
  refine ⟨?_, by decide, by decide⟩
  intro page
  unfold _parse_books_from_html
  rw [foldl_driverStep_spec]
  simp

/-- Claim C5: the series transform tries the three `_SERIES_PATTERNS` in
order with the first match winning, strips the name and coerces the entry;
`"(Series Name, #1)"` gives name `Series Name` and entry 1,
`"Series Name, Vol. 2"` gives name `Series Name` and entry 2, and text
matched by none of the three patterns gives absence. -/
theorem c5_series_patterns :
    (∀ s m, pat1Match s = some m →
      _SeriesParser_transform_data s = some ⟨pyStrip m.1, decStrToQ m.2⟩) ∧
    (∀ s m, pat1Match s = none → pat2Match s = some m →
      _SeriesParser_transform_data s = some ⟨pyStrip m.1, decStrToQ m.2⟩) ∧
    (∀ s m, pat1Match s = none → pat2Match s = none → pat3Match s = some m →
      _SeriesParser_transform_data s = some ⟨pyStrip m.1, decStrToQ m.2⟩) ∧
    (∀ s, pat1Match s = none → pat2Match s = none → pat3Match s = none →
      _SeriesParser_transform_data s = none) ∧
    _SeriesParser_transform_data "(Series Name, #1)" =
      some ⟨"Series Name", mkRat 1 1⟩ ∧
    _SeriesParser_transform_data "Series Name, Vol. 2" =
      some ⟨"Series Name", mkRat 2 1⟩ ∧
    _SeriesParser_transform_data "(Foundation, #2.5)" =
      some ⟨"Foundation", mkRat 5 2⟩ ∧
    _SeriesParser_transform_data "(Dune Book 3)" = some ⟨"Dune", mkRat 3 1⟩ ∧
    _SeriesParser_transform_data "Plain Title" = none ∧
    _SeriesParser_parse (mkTitleRowAnnot "(Series Name, #1)") =
      some ⟨"Series Name", mkRat 1 1⟩ ∧
    _SeriesParser_parse (mkTitleRowAnnot "Series Name, Vol. 2") =
      some ⟨"Series Name", mkRat 2 1⟩ := by
  refine ⟨?_, ?_, ?_, ?_, by decide, by decide, by decide, by decide,
    by decide, by decide, by decide⟩
  · intro s m h
    unfold _SeriesParser_transform_data
    rw [h]
  · intro s m h1 h2
    unfold _SeriesParser_transform_data
    rw [h1, h2]
  · intro s m h1 h2 h3
    unfold _SeriesParser_transform_data
    rw [h1, h2, h3]
  · intro s h1 h2 h3
    unfold _SeriesParser_transform_data
    rw [h1, h2, h3]

/-- Witness for C5 at concrete inputs for each guarded conjunct. -/
theorem c5_series_patterns_witness :
    _SeriesParser_transform_data "(A, #1)" =
      some ⟨pyStrip "A", decStrToQ "1"⟩ ∧
    _SeriesParser_transform_data "B, Vol. 2" =
      some ⟨pyStrip "B", decStrToQ "2"⟩ ∧
    _SeriesParser_transform_data "(C Book 3)" =
      some ⟨pyStrip "C", decStrToQ "3"⟩ ∧
    _SeriesParser_transform_data "nothing here" = none :=
  ⟨c5_series_patterns.1 "(A, #1)" ("A", "1") (by decide),
   c5_series_patterns.2.1 "B, Vol. 2" ("B", "2") (by decide) (by decide),
   c5_series_patterns.2.2.1 "(C Book 3)" ("C", "3") (by decide) (by decide)
     (by decide),
   c5_series_patterns.2.2.2.1 "nothing here" (by decide) (by decide)
     (by decide)⟩

/-- Claim C6, counterexample: the page-count extractor reads only the text
of the `<nobr>` element inside the `num_pages` cell.  On a cell whose text
`"416"` sits directly in the cell with no `<nobr>` around it, the cell is
located, its text contains a digit run that `_extract_number` accepts, yet
the extractor returns absence instead of 416. -/
theorem c6_nobr_required :
    (_get_field_cell rowPagesNoNobr "num_pages").map getTextStrip = some "416" ∧
    getTextStrip pagesCellNoNobr = "416" ∧
    _extract_number "416" = some 416 ∧
    _PageNumberParser_parse rowPagesNoNobr = none := by
  refine ⟨by decide, by decide, by decide, by decide⟩

/-- Claim C6 as amended: the extractor locates the `num_pages` cell and the
`<nobr>` element within it, and returns the first run of one to six digits
in the nobr text that is not immediately followed by another digit; it
returns absence when the cell is missing, when the nobr element is missing,
or when the text has no such run. -/
theorem c6_page_count_amended :
    (∀ row : Node, _get_field_cell row "num_pages" = none →
      _PageNumberParser_parse row = none) ∧
    _PageNumberParser_parse (mkPagesRow "416 pages") = some 416 ∧
    _PageNumberParser_parse goodRow = some 416 ∧
    _PageNumberParser_parse rowPagesNoNobr = none ∧
    _PageNumberParser_parse (mkPagesRow "no digits here") = none ∧
    _PageNumberParser_parse (mkPagesRow "1234567") = some 234567 ∧
    _PageNumberParser_parse emptyRow = none := by
  refine ⟨?_, by decide, by decide, by decide, by decide, by decide, by decide⟩
  intro row h
  simp [_PageNumberParser_parse, parsePipeline, h]

/-- Witness for the guarded conjunct of the amended C6 theorem. -/
theorem c6_page_count_amended_witness :
    _PageNumberParser_parse emptyRow = none :=
  c6_page_count_amended.1 emptyRow rfl

/-- Claim C7, counterexample: the Rating extractor does not return the
absence marker when its cell is missing.  On the empty row the rating cell
is absent and the generic three-step pipeline yields absence, yet the
extractor's result placed in the attribute dictionary is the integer 0,
not the absence marker. -/
theorem c7_rating_not_absent :
    _get_field_cell emptyRow "rating" = none ∧
    _RatingParser_parse_generic emptyRow = none ∧
    (_parse_row emptyRow).userRating = some 0 ∧
    (_parse_row emptyRow).userRating ≠ none := by
  refine ⟨rfl, by decide, by decide, by decide⟩

/-- Claim C7 as amended: when its expected cell is missing from the row,
or the cell is present but the expected sub-element within it is missing
(the author or title link, the date span, the `nobr` element, the
`staticStars` span or its `title` attribute, the annotation span, or — for
the review text — its span), every extractor except Rating returns the
absence marker, and the Rating extractor returns the neutral 0; all
extractors are total functions, so none can raise. -/
theorem c7_missing_cell_absence :
    (∀ row : Node, _get_field_cell row "author" = none →
      _AuthorParser_parse row = none) ∧
    (∀ row : Node, _get_field_cell row "title" = none →
      _TitleParser_parse row = none) ∧
    (∀ row : Node, _get_field_cell row "title" = none →
      _SeriesParser_parse row = none) ∧
    (∀ row : Node, _get_field_cell row "date_read" = none →
      _DateParser_parse row = none) ∧
    (∀ row : Node, _get_field_cell row "num_pages" = none →
      _PageNumberParser_parse row = none) ∧
    (∀ row : Node, findN isReviewTextSpan row = none →
      _ReviewParser_parse row = none) ∧
    (∀ row : Node, _get_field_cell row "rating" = none →
      _RatingParser_parse row = 0) ∧
    (∀ row cell : Node, _get_field_cell row "author" = some cell →
      findN (Node.isElemNamed "a") cell = none →
      _AuthorParser_parse row = none) ∧
    (∀ row cell : Node, _get_field_cell row "title" = some cell →
      findN (Node.isElemNamed "a") cell = none →
      _TitleParser_parse row = none) ∧
    (∀ row cell : Node, _get_field_cell row "title" = some cell →
      findN (Node.isElemNamed "a") cell = none →
      _SeriesParser_parse row = none) ∧
    (∀ row cell link : Node, _get_field_cell row "title" = some cell →
      findN (Node.isElemNamed "a") cell = some link →
      findN (fun n => n.isElemNamed "span" && hasClass "darkGreyText" n) link =
        none →
      _SeriesParser_parse row = none) ∧
    (∀ row cell : Node, _get_field_cell row "date_read" = some cell →
      dateSpanOf cell = none →
      _DateParser_parse row = none) ∧
    (∀ row cell : Node, _get_field_cell row "num_pages" = some cell →
      findN (Node.isElemNamed "nobr") cell = none →
      _PageNumberParser_parse row = none) ∧
    (∀ row cell : Node, _get_field_cell row "rating" = some cell →
      findN (fun n => n.isElemNamed "span" && hasClass "staticStars" n) cell =
        none →
      _RatingParser_parse row = 0) ∧
    (∀ row cell sp : Node, _get_field_cell row "rating" = some cell →
      findN (fun n => n.isElemNamed "span" && hasClass "staticStars" n) cell =
        some sp →
      sp.attr? "title" = none →
      _RatingParser_parse row = 0) := by
  refine ⟨?_, ?_, ?_, ?_, ?_, ?_, ?_, ?_, ?_, ?_, ?_, ?_, ?_, ?_, ?_⟩
  · intro row h
    simp [_AuthorParser_parse, parsePipeline, h]
  · intro row h
    simp [_TitleParser_parse, parsePipeline, h]
  · intro row h
    simp [_SeriesParser_parse, parsePipeline, h]
  · intro row h
    simp [_DateParser_parse, parsePipeline, h]
  · intro row h
    simp [_PageNumberParser_parse, parsePipeline, h]
  · intro row h
    simp [_ReviewParser_parse, parsePipeline, h]
  · intro row h
    simp [_RatingParser_parse, _RatingParser_parse_generic, parsePipeline, h]
  · intro row cell h1 h2
    simp [_AuthorParser_parse, parsePipeline, h1, h2]
  · intro row cell h1 h2
    simp [_TitleParser_parse, parsePipeline, h1, h2]
  · intro row cell h1 h2
    simp [_SeriesParser_parse, parsePipeline, h1, h2]
  · intro row cell link h1 h2 h3
    simp [_SeriesParser_parse, parsePipeline, _safe_find_text, h1, h2, h3]
  · intro row cell h1 h2
    simp [_DateParser_parse, parsePipeline, _safe_find_text, h1, h2]
  · intro row cell h1 h2
    simp [_PageNumberParser_parse, parsePipeline, _safe_find_text, h1, h2]
  · intro row cell h1 h2
    simp [_RatingParser_parse, _RatingParser_parse_generic, parsePipeline,
      h1, h2]
  · intro row cell sp h1 h2 h3
    simp [_RatingParser_parse, _RatingParser_parse_generic, parsePipeline,
      h1, h2, h3]

/-- Witness for the amended C7 theorem: every extractor applied to the bare
row with no cells, and every extractor applied to a row whose cell is
present but whose expected sub-element (link, span, nobr element, or title
attribute) is missing. -/
theorem c7_missing_cell_absence_witness :
    _AuthorParser_parse emptyRow = none ∧
    _TitleParser_parse emptyRow = none ∧
    _SeriesParser_parse emptyRow = none ∧
    _DateParser_parse emptyRow = none ∧
    _PageNumberParser_parse emptyRow = none ∧
    _ReviewParser_parse emptyRow = none ∧
    _RatingParser_parse emptyRow = 0 ∧
    _AuthorParser_parse rowAuthorNoLink = none ∧
    _TitleParser_parse rowTitleNoLink = none ∧
    _SeriesParser_parse rowTitleNoLink = none ∧
    _SeriesParser_parse rowPlainTitle = none ∧
    _DateParser_parse rowDateNoSpan = none ∧
    _PageNumberParser_parse rowPagesNoNobr = none ∧
    _RatingParser_parse rowRatingNoSpan = 0 ∧
    _RatingParser_parse rowRatingBareSpan = 0 :=
  ⟨c7_missing_cell_absence.1 emptyRow rfl,
   c7_missing_cell_absence.2.1 emptyRow rfl,
   c7_missing_cell_absence.2.2.1 emptyRow rfl,
   c7_missing_cell_absence.2.2.2.1 emptyRow rfl,
   c7_missing_cell_absence.2.2.2.2.1 emptyRow rfl,
   c7_missing_cell_absence.2.2.2.2.2.1 emptyRow rfl,
   c7_missing_cell_absence.2.2.2.2.2.2.1 emptyRow rfl,
   c7_missing_cell_absence.2.2.2.2.2.2.2.1 rowAuthorNoLink authorCellNoLink
     rfl rfl,
   c7_missing_cell_absence.2.2.2.2.2.2.2.2.1 rowTitleNoLink titleCellNoLink
     rfl rfl,
   c7_missing_cell_absence.2.2.2.2.2.2.2.2.2.1 rowTitleNoLink titleCellNoLink
     rfl rfl,
   c7_missing_cell_absence.2.2.2.2.2.2.2.2.2.2.1 rowPlainTitle plainTitleCell
     plainTitleLink rfl rfl rfl,
   c7_missing_cell_absence.2.2.2.2.2.2.2.2.2.2.2.1 rowDateNoSpan dateCellNoSpan
     rfl rfl,
   c7_missing_cell_absence.2.2.2.2.2.2.2.2.2.2.2.2.1 rowPagesNoNobr
     pagesCellNoNobr rfl rfl,
   c7_missing_cell_absence.2.2.2.2.2.2.2.2.2.2.2.2.2.1 rowRatingNoSpan
     ratingCellNoSpan rfl rfl,
   c7_missing_cell_absence.2.2.2.2.2.2.2.2.2.2.2.2.2.2 rowRatingBareSpan
     ratingCellBareSpan bareStaticStarsSpan rfl rfl rfl⟩

/-- Claim C8: the Rating extractor maps the span title case-insensitively
through the fixed five-entry table, a missing or unrecognized title yields
the neutral 0, and the extractor never returns the absence marker: its
result is always an integer between 0 and 5. -/
theorem c8_rating_mapping :
    _RatingParser_transform_data "it was amazing" = 5 ∧
    _RatingParser_transform_data "liked it" = 3 ∧
    _RatingParser_transform_data "did not like it" = 1 ∧
    _RatingParser_transform_data "it was ok" = 2 ∧
    _RatingParser_transform_data "really liked it" = 4 ∧
    _RatingParser_transform_data "It Was AMAZING" = 5 ∧
    _RatingParser_transform_data "six stars" = 0 ∧
    _RatingParser_parse (mkRatingRow "it was amazing") = 5 ∧
    _RatingParser_parse (mkRatingRow "Liked It") = 3 ∧
    _RatingParser_parse (mkRatingRow "six stars") = 0 ∧
    _RatingParser_parse emptyRow = 0 ∧
    (∀ row : Node, 0 ≤ _RatingParser_parse row ∧ _RatingParser_parse row ≤ 5) := by
  refine ⟨by decide, by decide, by decide, by decide, by decide, by decide,
    by decide, by decide, by decide, by decide, by decide, rating_parse_range⟩

/-- Claim C9, counterexample: the display title tests truthiness, not
presence.  The attributes with series name `""` and entry `0.0` validate
successfully (both falsy), and the resulting record has both series fields
present, yet its display title is the plain `"T by A"` rather than the
claimed series form `"T (, #0) by A"`. -/
theorem c9_display_title_truthiness :
    Book.model_validate degenerateSeriesAttrs = Except.ok degenerateBook ∧
    degenerateBook.seriesName = some "" ∧
    degenerateBook.seriesEntry = some (mkRat 0 1) ∧
    degenerateBook.full_title = "T by A" ∧
    degenerateBook.full_title ≠ "T (, #0) by A" := by
  refine ⟨by decide, by decide, by decide, by decide, by decide⟩

/-- Claim C9 as amended: when both series fields are truthy (name non-empty,
entry non-zero) the display title is
`"{title} ({seriesName}, #{entry}) by {authorName}"`, otherwise it is
`"{title} by {authorName}"`; a whole-number entry renders as its integer
decimal representation with no decimal point (2.0 as `#2`), a fractional
entry keeps its decimal point (2.5 as `#2.5`). -/
theorem c9_display_title_amended :
    (∀ (b : Book) (n : String) (q : ℚ), b.seriesName = some n →
      b.seriesEntry = some q → n ≠ "" → q ≠ 0 →
      b.full_title = b.title ++ " " ++ ("(" ++ n ++ ", #" ++ entryRender q ++ ") ")
        ++ ("by " ++ b.authorName)) ∧
    (∀ b : Book, (truthyOptStr b.seriesName && truthyOptQ b.seriesEntry) = false →
      b.full_title = b.title ++ " " ++ ("by " ++ b.authorName)) ∧
    (∀ q : ℚ, q.den = 1 → entryRender q = Int.repr q.num) ∧
    entryRender (mkRat 2 1) = "2" ∧
    entryRender (mkRat 5 2) = "2.5" ∧
    bookWithSeries.full_title = "Example Book (The Example Series, #2) by John Doe" ∧
    bookWithHalfEntry.full_title =
      "Example Book (The Example Series, #2.5) by John Doe" ∧
    goodBook.full_title = "Watchmen by Moore, Alan" := by
  refine ⟨?_, ?_, ?_, by decide, by decide, by decide, by decide, by decide⟩
  · intro b n q h1 h2 h3 h4
    unfold Book.full_title
    rw [h1, h2]
    have h5 : q.num ≠ 0 := by
      simpa [Rat.num_eq_zero] using h4
    simp [h3, h5]
  · intro b h
    unfold Book.full_title
    cases hn : b.seriesName with
    | none => rfl
    | some n =>
      cases hq : b.seriesEntry with
      | none => rfl
      | some q =>
        rw [hn, hq] at h
        simp only [truthyOptStr, truthyOptQ, Bool.and_eq_false_iff] at h
        dsimp only
        rcases h with h | h
        · simp only [decide_eq_false_iff_not, not_not] at h
          simp [h]
        · simp only [decide_eq_false_iff_not, not_not] at h
          rw [Rat.num_eq_zero] at h
          simp [h]
  · intro q h
    unfold entryRender
    rw [if_pos h]

/-- Witness for the amended C9 theorem at concrete records. -/
theorem c9_display_title_amended_witness :
    bookWithSeries.full_title = bookWithSeries.title ++ " " ++
      ("(" ++ "The Example Series" ++ ", #" ++ entryRender (mkRat 2 1) ++ ") ")
      ++ ("by " ++ bookWithSeries.authorName) ∧
    goodBook.full_title = goodBook.title ++ " " ++ ("by " ++ goodBook.authorName) ∧
    entryRender (mkRat 7 1) = Int.repr (mkRat 7 1).num :=
  ⟨c9_display_title_amended.1 bookWithSeries "The Example Series" (mkRat 2 1)
     rfl rfl (by decide) (by decide),
   c9_display_title_amended.2.1 goodBook (by decide),
   c9_display_title_amended.2.2.1 (mkRat 7 1) (by decide)⟩

/-- Claim C10: when the title link contains no `darkGreyText` annotation
span, the Series extractor returns absence without ever trying the series
patterns on the raw link text — even for raw text such as
`"Whatever, Vol. 2"` that pattern 2 would match (the Title extractor shows
the raw text is really there). -/
theorem c10_no_annotation_span_no_series :
    (∀ s : String, _SeriesParser_parse (mkTitleRowRaw s) = none) ∧
    pat2Match "Whatever, Vol. 2" = some ("Whatever", "2") ∧
    _SeriesParser_transform_data "Whatever, Vol. 2" =
      some ⟨"Whatever", mkRat 2 1⟩ ∧
    _SeriesParser_parse (mkTitleRowRaw "Whatever, Vol. 2") = none ∧
    _TitleParser_parse (mkTitleRowRaw "Whatever, Vol. 2") =
      some "Whatever, Vol. 2" := by
  refine ⟨fun s => rfl, by decide, by decide, by decide, by decide⟩

end PyReads
